import Mathlib

/-!
Verification of the TabSaver session-store logic (src/popup.js).

The popup keeps a global mutable array `sessions`, mirrors it to the
browser's local key-value store under the key sessions on every
mutation, and emits user-visible feedback toasts.  We embed that state
as an explicit structure and each handler of popup.js as a pure state
transformer.  Host effects (tab enumeration, tab creation, the blocking
confirm dialog, the clock and the locale clock string) are passed in as
parameters or recorded as traces.
-/

namespace TabSaver

/-- A saved tab record: popup.js keeps only `title` and `url` of each
browser tab (saveCurrentTabs, step 4). -/
structure Tab where
  title : String
  url : String
deriving DecidableEq, Repr

/-- A browser tab as returned by the host tab-enumeration API.  The host
object carries more fields than the two the code keeps; we record a tab
id and the active flag to keep the projection in `captureTabData`
honest. -/
structure BrowserTab where
  id : Nat
  active : Bool
  title : String
  url : String
deriving DecidableEq, Repr

/-- A session object as built in saveCurrentTabs step 5:
`{ name, tabs, timestamp, tabCount }`. -/
structure Session where
  name : String
  tabs : List Tab
  timestamp : Nat
  tabCount : Nat
deriving DecidableEq, Repr

instance : Inhabited Session := ⟨⟨"", [], 0, 0⟩⟩

/-- Feedback toast kind: showFeedback(message, type) with type
success or error. -/
inductive FeedbackType where
  | success
  | error
deriving DecidableEq, Repr

/-- One feedback toast emitted by showFeedback. -/
structure Feedback where
  message : String
  type : FeedbackType
deriving DecidableEq, Repr

/-- A request issued to the host tab-creation API:
chrome.tabs.create sent a url and an active flag. -/
structure TabCreateRequest where
  url : String
  active : Bool
deriving DecidableEq, Repr

/-- The popup's state: the global `sessions` array, the persisted value
under the storage key sessions (`none` when nothing was ever written),
the two text inputs, the rename-modal state
(`currentRenameTimestamp` doubles as the modal's target), and the
traces of feedback toasts and confirm dialogs shown. -/
structure PopupState where
  sessions : List Session
  storage : Option (List Session)
  nameInput : String
  renameInput : String
  currentRenameTimestamp : Option Nat
  renameModalOpen : Bool
  feedback : List Feedback
  prompts : List String
deriving DecidableEq, Repr

/-- The popup before anything happened: empty array, nothing persisted,
blank inputs, modal closed, no toasts or dialogs yet. -/
def emptyPopupState : PopupState :=
  { sessions := []
    storage := none
    nameInput := ""
    renameInput := ""
    currentRenameTimestamp := none
    renameModalOpen := false
    feedback := []
    prompts := [] }

/-- ECMAScript whitespace as far as ASCII goes: the characters removed
by `String.prototype.trim` that can appear in our model. -/
def isJsWhitespace (c : Char) : Bool :=
  c = ' ' || c = '\t' || c = '\n' || c = '\r' || c = '\x0b' || c = '\x0c'

/-- JavaScript's `.trim()`: drop leading and trailing whitespace. -/
def jsTrim (s : String) : String :=
  String.mk (((s.data.dropWhile isJsWhitespace).reverse.dropWhile isJsWhitespace).reverse)

/-- loadSessions (popup.js lines 205-213): `sessions = result.sessions || []` —
the persisted list, or the empty list when the key was never written. -/
def loadSessions (storage : Option (List Session)) : List Session :=
  storage.getD []

/-- saveCurrentTabs step 4: `tabs.map(tab => ({title: tab.title, url: tab.url}))`. -/
def captureTabData (tabs : List BrowserTab) : List Tab :=
  tabs.map (fun tab => { title := tab.title, url := tab.url })

/-- saveCurrentTabs (popup.js lines 141-200).  `nowLocale` stands for
`new Date().toLocaleString()`, `now` for `Date.now()`, `browserTabs`
for the result of `chrome.tabs.query({currentWindow: true})`.  The
trimmed input names the session unless it is blank, in which case the
default `Session <locale-formatted-now>` is used; the new session is
pushed, the whole array is written to storage, the input is cleared and
a success toast is emitted. -/
def saveCurrentTabs (st : PopupState) (nowLocale : String) (now : Nat)
    (browserTabs : List BrowserTab) : PopupState :=
  let trimmed := jsTrim st.nameInput
  let sessionName := if trimmed = "" then "Session " ++ nowLocale else trimmed
  let tabData := captureTabData browserTabs
  let newSession : Session :=
    { name := sessionName
      tabs := tabData
      timestamp := now
      tabCount := tabData.length }
  let newSessions := st.sessions ++ [newSession]
  { st with
    sessions := newSessions
    storage := some newSessions
    nameInput := ""
    feedback := st.feedback ++ [⟨"Session saved successfully!", .success⟩] }

/-- deleteSessionByTimestamp (popup.js lines 429-476).  `userConfirm`
stands for the user's answer to the blocking `confirm(...)` dialog.
findIndex misses: error toast, nothing else.  Found: the dialog is
shown; on cancel nothing further happens; on OK the session is spliced
out, the array is written to storage and a success toast is emitted. -/
def deleteSessionByTimestamp (st : PopupState) (ts : Nat) (userConfirm : Bool) :
    PopupState :=
  match st.sessions.findIdx? (fun s => s.timestamp = ts) with
  | none =>
      { st with feedback := st.feedback ++ [⟨"Error: Session not found", .error⟩] }
  | some index =>
      let session := (st.sessions.get? index).getD default
      let st1 :=
        { st with prompts := st.prompts ++ ["Delete session \"" ++ session.name ++ "\"?"] }
      if userConfirm then
        let newSessions := st1.sessions.eraseIdx index
        { st1 with
          sessions := newSessions
          storage := some newSessions
          feedback := st1.feedback ++ [⟨"Session deleted", .success⟩] }
      else
        st1

/-- confirmRename (popup.js lines 527-563).  No target set: silent
return.  Blank trimmed input: error toast, modal stays open, state
otherwise untouched.  Target vanished: error toast.  Otherwise the
found session's `name` field is overwritten in place, the array is
written to storage, the modal closes and a success toast is emitted. -/
def confirmRename (st : PopupState) : PopupState :=
  match st.currentRenameTimestamp with
  | none => st
  | some ts =>
      let newName := jsTrim st.renameInput
      if newName = "" then
        { st with feedback := st.feedback ++ [⟨"Please enter a name", .error⟩] }
      else
        match st.sessions.findIdx? (fun s => s.timestamp = ts) with
        | none =>
            { st with feedback := st.feedback ++ [⟨"Error: Session not found", .error⟩] }
        | some index =>
            let old := (st.sessions.get? index).getD default
            let newSessions := st.sessions.set index { old with name := newName }
            { st with
              sessions := newSessions
              storage := some newSessions
              renameModalOpen := false
              currentRenameTimestamp := none
              feedback := st.feedback ++ [⟨"Session renamed", .success⟩] }

/-- The tab-creation requests issued by the restore loop of
openSessionByTimestamp: one request per stored tab record, in order,
each with `active: false`; each `chrome.tabs.create` is awaited before
the recursion issues the next. -/
def restoreRequests : List Tab → List TabCreateRequest
  | [] => []
  | tab :: rest => { url := tab.url, active := false } :: restoreRequests rest

/-- openSessionByTimestamp (popup.js lines 389-409): look the session up
by timestamp with `find`; if missing, error toast and no requests;
otherwise issue the restore requests sequentially and emit the
`Opened N tab(s)` toast. -/
def openSessionByTimestamp (st : PopupState) (ts : Nat) :
    PopupState × List TabCreateRequest :=
  match st.sessions.find? (fun s => s.timestamp = ts) with
  | none =>
      ({ st with feedback := st.feedback ++ [⟨"Error: Session not found", .error⟩] }, [])
  | some session =>
      let reqs := restoreRequests session.tabs
      ({ st with
          feedback := st.feedback ++
            [⟨"Opened " ++ toString session.tabs.length ++
              (if session.tabs.length = 1 then " tab" else " tabs"), .success⟩] }, reqs)

/-- The data a single save operation consumes: what the user typed into
the name input and the host-supplied locale string, clock value and tab
list at that moment. -/
structure SaveInput where
  typed : String
  nowLocale : String
  now : Nat
  browserTabs : List BrowserTab
deriving DecidableEq, Repr

/-- Run a sequence of save operations: before each save the user types
the input's text into the name field, then clicks Save. -/
def runSaves (st : PopupState) : List SaveInput → PopupState
  | [] => st
  | i :: rest =>
      runSaves (saveCurrentTabs { st with nameInput := i.typed } i.nowLocale i.now i.browserTabs) rest

/-- The session that a save constructs from a given `SaveInput`
(saveCurrentTabs steps 1-5 as a function of the inputs). -/
def sessionOfInput (i : SaveInput) : Session :=
  let trimmed := jsTrim i.typed
  { name := if trimmed = "" then "Session " ++ i.nowLocale else trimmed
    tabs := captureTabData i.browserTabs
    timestamp := i.now
    tabCount := (captureTabData i.browserTabs).length }

/-- A concrete two-save scenario: a blank-named save of one tab at
clock 1, then a save named Work of no tabs at clock 2. -/
def c1Saves : List SaveInput :=
  [⟨"", "d1", 1, [⟨1, true, "A", "https://a.test"⟩]⟩, ⟨"Work", "d2", 2, []⟩]

/-! ## General list lemmas

The store operations locate a session with `findIdx?` and then read,
splice or overwrite at that index; these lemmas describe those three
steps on a list split as `l1 ++ s :: l2` around the first match. -/

theorem findIdx?_go_first {α : Type} (p : α → Bool) :
    ∀ (l1 : List α) (s : α) (l2 : List α) (i : Nat), p s = true → (∀ x ∈ l1, p x = false) →
      (l1 ++ s :: l2).findIdx? p i = some (i + l1.length) := by
  intro l1
  induction l1 with
  | nil =>
    intro s l2 i hs _
    simp [List.findIdx?, hs]
  | cons a t ih =>
    intro s l2 i hs h1
    have ha : p a = false := h1 a (List.mem_cons_self a t)
    have ht : ∀ x ∈ t, p x = false := fun x hx => h1 x (List.mem_cons_of_mem a hx)
    simp only [List.cons_append, List.findIdx?, ha, Bool.false_eq_true, if_false,
      List.append_eq]
    rw [ih s l2 (i + 1) hs ht]
    congr 1
    simp only [List.length_cons]
    omega

theorem findIdx?_first {α : Type} (p : α → Bool) (l1 : List α) (s : α) (l2 : List α)
    (hs : p s = true) (h1 : ∀ x ∈ l1, p x = false) :
    (l1 ++ s :: l2).findIdx? p = some l1.length := by
  simpa using findIdx?_go_first p l1 s l2 0 hs h1

theorem get?_append_mid {α : Type} : ∀ (l1 : List α) (s : α) (l2 : List α),
    (l1 ++ s :: l2).get? l1.length = some s := by
  intro l1
  induction l1 with
  | nil => intro s l2; rfl
  | cons a t ih => intro s l2; exact ih s l2

theorem eraseIdx_append_mid {α : Type} : ∀ (l1 : List α) (s : α) (l2 : List α),
    (l1 ++ s :: l2).eraseIdx l1.length = l1 ++ l2 := by
  intro l1
  induction l1 with
  | nil => intro s l2; rfl
  | cons a t ih =>
    intro s l2
    simp only [List.cons_append, List.length_cons, List.eraseIdx, List.append_eq]
    rw [ih s l2]

theorem set_append_mid {α : Type} : ∀ (l1 : List α) (s v : α) (l2 : List α),
    (l1 ++ s :: l2).set l1.length v = l1 ++ v :: l2 := by
  intro l1
  induction l1 with
  | nil => intro s v l2; rfl
  | cons a t ih =>
    intro s v l2
    simp only [List.cons_append, List.length_cons, List.set, List.append_eq]
    rw [ih s v l2]

/-! ## Behaviour of save sequences -/

theorem saveCurrentTabs_sessions (st : PopupState) (L : String) (n : Nat)
    (bt : List BrowserTab) :
    (saveCurrentTabs st L n bt).sessions =
      st.sessions ++ [sessionOfInput ⟨st.nameInput, L, n, bt⟩] := rfl

theorem runSaves_sessions : ∀ (saves : List SaveInput) (st : PopupState),
    (runSaves st saves).sessions = st.sessions ++ saves.map sessionOfInput := by
  intro saves
  induction saves with
  | nil => intro st; simp [runSaves]
  | cons i rest ih =>
    intro st
    simp only [runSaves, ih, saveCurrentTabs_sessions, List.map_cons]
    simp

theorem runSaves_storage : ∀ (saves : List SaveInput), saves ≠ [] → ∀ st : PopupState,
    (runSaves st saves).storage = some ((runSaves st saves).sessions) := by
  intro saves
  induction saves with
  | nil => intro h; exact absurd rfl h
  | cons i rest ih =>
    intro _ st
    cases rest with
    | nil => rfl
    | cons j r => exact ih (by simp) _

theorem loadAll_runSaves (saves : List SaveInput) :
    loadSessions ((runSaves emptyPopupState saves).storage) = saves.map sessionOfInput := by
  cases saves with
  | nil => rfl
  | cons i rest =>
    rw [loadSessions, runSaves_storage (i :: rest) (by simp), Option.getD_some,
      runSaves_sessions]
    rfl

/-! ## The claims -/

/-- C1: starting from the empty store, after each save of the sequence
`loadSessions` returns exactly the sessions constructed by the saves so
far, in creation order, and — given that the clock values of the saves
are pairwise distinct (the spec's own caveat: collisions need two saves
in the same millisecond) — the stored timestamps are pairwise
distinct. -/
theorem save_sequence_ordered_distinct (saves : List SaveInput)
    (h : (saves.map SaveInput.now).Nodup) :
    (∀ k : Nat, loadSessions ((runSaves emptyPopupState (saves.take k)).storage) =
        (saves.take k).map sessionOfInput) ∧
    ((saves.map sessionOfInput).map Session.timestamp).Nodup := by
  constructor
  · intro k; exact loadAll_runSaves (saves.take k)
  · have he : (saves.map sessionOfInput).map Session.timestamp = saves.map SaveInput.now := by
      rw [List.map_map]
      rfl
    rw [he]
    exact h

/-- C1, witnessed on the concrete two-save scenario `c1Saves`. -/
theorem save_sequence_ordered_distinct_witness :
    loadSessions ((runSaves emptyPopupState (c1Saves.take 2)).storage) =
      (c1Saves.take 2).map sessionOfInput ∧
    ((c1Saves.map sessionOfInput).map Session.timestamp).Nodup :=
  ⟨(save_sequence_ordered_distinct c1Saves (by decide)).1 2,
   (save_sequence_ordered_distinct c1Saves (by decide)).2⟩

/-- C2, counterexample: a save whose name input is whitespace-only is
not blocked — the store is mutated.  A session with the default name is
appended, the array is written to storage, and the feedback is the
success toast, not a validation error. -/
theorem save_blank_counterexample :
    (saveCurrentTabs { emptyPopupState with nameInput := "   " } ("10/11/2025, 1:30 PM") 7
        [⟨1, true, "A", "https://a.test"⟩]).sessions =
      [⟨"Session 10/11/2025, 1:30 PM", [⟨"A", "https://a.test"⟩], 7, 1⟩] ∧
    (saveCurrentTabs { emptyPopupState with nameInput := "   " } ("10/11/2025, 1:30 PM") 7
        [⟨1, true, "A", "https://a.test"⟩]).storage =
      some [⟨"Session 10/11/2025, 1:30 PM", [⟨"A", "https://a.test"⟩], 7, 1⟩] ∧
    (saveCurrentTabs { emptyPopupState with nameInput := "   " } ("10/11/2025, 1:30 PM") 7
        [⟨1, true, "A", "https://a.test"⟩]).feedback =
      [⟨"Session saved successfully!", FeedbackType.success⟩] ∧
    (saveCurrentTabs { emptyPopupState with nameInput := "   " } ("10/11/2025, 1:30 PM") 7
        [⟨1, true, "A", "https://a.test"⟩]).sessions ≠ emptyPopupState.sessions := by
  refine ⟨by decide, by decide, by decide, by decide⟩

/-- C2, amended: a save whose name input is blank after trimming is not
blocked; it proceeds with the default name `Session <locale-now>`, the
session is appended and written to storage, and a success toast is
emitted. -/
theorem save_blank_uses_default (st : PopupState) (L : String) (n : Nat)
    (bt : List BrowserTab)
    (h : jsTrim st.nameInput = "") :
    (saveCurrentTabs st L n bt).sessions =
      st.sessions ++ [{ name := "Session " ++ L, tabs := captureTabData bt, timestamp := n,
                        tabCount := (captureTabData bt).length }] ∧
    (saveCurrentTabs st L n bt).storage = some ((saveCurrentTabs st L n bt).sessions) ∧
    (saveCurrentTabs st L n bt).feedback =
      st.feedback ++ [⟨"Session saved successfully!", FeedbackType.success⟩] := by
  refine ⟨?_, rfl, rfl⟩
  simp [saveCurrentTabs, h]

/-- C2 amended, witnessed at a single-space name input. -/
theorem save_blank_uses_default_witness :
    (saveCurrentTabs { emptyPopupState with nameInput := " " } ("d") 3 []).sessions =
      emptyPopupState.sessions ++
        [{ name := "Session " ++ "d", tabs := captureTabData [], timestamp := 3,
           tabCount := (captureTabData []).length }] ∧
    (saveCurrentTabs { emptyPopupState with nameInput := " " } ("d") 3 []).storage =
      some ((saveCurrentTabs { emptyPopupState with nameInput := " " } ("d") 3 []).sessions) ∧
    (saveCurrentTabs { emptyPopupState with nameInput := " " } ("d") 3 []).feedback =
      emptyPopupState.feedback ++ [⟨"Session saved successfully!", FeedbackType.success⟩] :=
  save_blank_uses_default { emptyPopupState with nameInput := " " } ("d") 3 [] (by decide)

/-- C3: deleting by a present timestamp (with the confirm dialog
answered OK) removes exactly the first session whose timestamp matches
and leaves every other session, with all its field values, unchanged
and in the same relative order; the result is also what is written to
storage. -/
theorem removeByTimestamp_removes_first (st : PopupState) (ts : Nat)
    (l1 l2 : List Session) (s : Session)
    (hsplit : st.sessions = l1 ++ s :: l2)
    (hs : s.timestamp = ts)
    (h1 : ∀ x ∈ l1, x.timestamp ≠ ts) :
    (deleteSessionByTimestamp st ts true).sessions = l1 ++ l2 ∧
    (deleteSessionByTimestamp st ts true).storage = some (l1 ++ l2) := by
  have hfind : st.sessions.findIdx? (fun x => x.timestamp = ts) = some l1.length := by
    rw [hsplit]
    exact findIdx?_first _ l1 s l2 (by simp [hs]) (fun x hx => by simp [h1 x hx])
  have herase : st.sessions.eraseIdx l1.length = l1 ++ l2 := by
    rw [hsplit]; exact eraseIdx_append_mid l1 s l2
  simp [deleteSessionByTimestamp, hfind, herase]

/-- C3, witnessed on the spec's scenario: timestamps [100, 200, 300],
delete 200, store becomes [100, 300] in that order. -/
theorem removeByTimestamp_removes_first_witness :
    (deleteSessionByTimestamp
        { emptyPopupState with
            sessions := [⟨"x", [], 100, 0⟩, ⟨"y", [], 200, 0⟩, ⟨"z", [], 300, 0⟩] }
        200 true).sessions = [⟨"x", [], 100, 0⟩] ++ [⟨"z", [], 300, 0⟩] ∧
    (deleteSessionByTimestamp
        { emptyPopupState with
            sessions := [⟨"x", [], 100, 0⟩, ⟨"y", [], 200, 0⟩, ⟨"z", [], 300, 0⟩] }
        200 true).storage = some ([⟨"x", [], 100, 0⟩] ++ [⟨"z", [], 300, 0⟩]) :=
  removeByTimestamp_removes_first _ 200 [⟨"x", [], 100, 0⟩] [⟨"z", [], 300, 0⟩]
    ⟨"y", [], 200, 0⟩ rfl rfl (by decide)

/-- C4: confirming a rename with a non-blank trimmed name replaces only
the `name` field of the targeted session — the surrounding list, the
session's `tabs`, `timestamp` and `tabCount` are unchanged, so the
timestamp identifier is never regenerated by a rename. -/
theorem rename_updates_only_name (st : PopupState) (ts : Nat)
    (l1 l2 : List Session) (s : Session)
    (hcur : st.currentRenameTimestamp = some ts)
    (hsplit : st.sessions = l1 ++ s :: l2)
    (hs : s.timestamp = ts)
    (h1 : ∀ x ∈ l1, x.timestamp ≠ ts)
    (hname : jsTrim st.renameInput ≠ "") :
    (confirmRename st).sessions =
      l1 ++ { s with name := jsTrim st.renameInput } :: l2 ∧
    (confirmRename st).storage =
      some (l1 ++ { s with name := jsTrim st.renameInput } :: l2) ∧
    ({ s with name := jsTrim st.renameInput }).tabs = s.tabs ∧
    ({ s with name := jsTrim st.renameInput }).timestamp = s.timestamp ∧
    ({ s with name := jsTrim st.renameInput }).tabCount = s.tabCount := by
  have hfind : st.sessions.findIdx? (fun x => x.timestamp = ts) = some l1.length := by
    rw [hsplit]
    exact findIdx?_first _ l1 s l2 (by simp [hs]) (fun x hx => by simp [h1 x hx])
  have hget : st.sessions[l1.length]? = some s := by
    rw [hsplit, ← List.get?_eq_getElem?]; exact get?_append_mid l1 s l2
  have hset : st.sessions.set l1.length { s with name := jsTrim st.renameInput } =
      l1 ++ { s with name := jsTrim st.renameInput } :: l2 := by
    rw [hsplit]; exact set_append_mid l1 s _ l2
  simp [confirmRename, hcur, hname, hfind, hget, hset]

/-- C4, witnessed: renaming the single session with timestamp 5 to a
padded new name keeps its tabs, timestamp and tab count. -/
theorem rename_updates_only_name_witness :
    (confirmRename
        { emptyPopupState with
            sessions := [⟨"old", [⟨"A", "https://a.test"⟩], 5, 1⟩]
            renameInput := " new "
            currentRenameTimestamp := some 5
            renameModalOpen := true }).sessions =
      [] ++ { (⟨"old", [⟨"A", "https://a.test"⟩], 5, 1⟩ : Session) with
                name := jsTrim (" new ") } :: [] ∧
    (confirmRename
        { emptyPopupState with
            sessions := [⟨"old", [⟨"A", "https://a.test"⟩], 5, 1⟩]
            renameInput := " new "
            currentRenameTimestamp := some 5
            renameModalOpen := true }).storage =
      some ([] ++ { (⟨"old", [⟨"A", "https://a.test"⟩], 5, 1⟩ : Session) with
                      name := jsTrim (" new ") } :: []) ∧
    ({ (⟨"old", [⟨"A", "https://a.test"⟩], 5, 1⟩ : Session) with
         name := jsTrim (" new ") }).tabs = [⟨"A", "https://a.test"⟩] ∧
    ({ (⟨"old", [⟨"A", "https://a.test"⟩], 5, 1⟩ : Session) with
         name := jsTrim (" new ") }).timestamp = 5 ∧
    ({ (⟨"old", [⟨"A", "https://a.test"⟩], 5, 1⟩ : Session) with
         name := jsTrim (" new ") }).tabCount = 1 :=
  rename_updates_only_name _ 5 [] [] ⟨"old", [⟨"A", "https://a.test"⟩], 5, 1⟩
    rfl rfl rfl (by decide) (by decide)

/-- C5: confirming a rename with a blank (whitespace-only) input leaves
the session list, storage, the modal-open flag and the rename target
unchanged, and appends the validation-error toast. -/
theorem rename_blank_rejected (st : PopupState) (ts : Nat)
    (hcur : st.currentRenameTimestamp = some ts)
    (hblank : jsTrim st.renameInput = "") :
    (confirmRename st).sessions = st.sessions ∧
    (confirmRename st).storage = st.storage ∧
    (confirmRename st).renameModalOpen = st.renameModalOpen ∧
    (confirmRename st).currentRenameTimestamp = st.currentRenameTimestamp ∧
    (confirmRename st).feedback =
      st.feedback ++ [⟨"Please enter a name", FeedbackType.error⟩] := by
  simp [confirmRename, hcur, hblank]

/-- C5, witnessed with an open modal and a two-space input. -/
theorem rename_blank_rejected_witness :
    (confirmRename
        { emptyPopupState with
            sessions := [⟨"old", [], 5, 0⟩]
            renameInput := "  "
            currentRenameTimestamp := some 5
            renameModalOpen := true }).sessions = [⟨"old", [], 5, 0⟩] ∧
    (confirmRename
        { emptyPopupState with
            sessions := [⟨"old", [], 5, 0⟩]
            renameInput := "  "
            currentRenameTimestamp := some 5
            renameModalOpen := true }).storage = none ∧
    (confirmRename
        { emptyPopupState with
            sessions := [⟨"old", [], 5, 0⟩]
            renameInput := "  "
            currentRenameTimestamp := some 5
            renameModalOpen := true }).renameModalOpen = true ∧
    (confirmRename
        { emptyPopupState with
            sessions := [⟨"old", [], 5, 0⟩]
            renameInput := "  "
            currentRenameTimestamp := some 5
            renameModalOpen := true }).currentRenameTimestamp = some 5 ∧
    (confirmRename
        { emptyPopupState with
            sessions := [⟨"old", [], 5, 0⟩]
            renameInput := "  "
            currentRenameTimestamp := some 5
            renameModalOpen := true }).feedback =
      [] ++ [⟨"Please enter a name", FeedbackType.error⟩] :=
  rename_blank_rejected _ 5 rfl (by decide)

/-- The restore loop issues one request per stored tab, in list order,
each with the record's url and `active := false`. -/
theorem restoreRequests_eq_map (tabs : List Tab) :
    restoreRequests tabs = tabs.map (fun t => { url := t.url, active := false }) := by
  induction tabs with
  | nil => rfl
  | cons t rest ih => simp [restoreRequests, ih]

/-- C6: restoring a found session issues exactly one tab-creation
request per stored tab record, in the stored order, each with that
record's url and an inactive flag (the sequential recursion of
`restoreRequests` models the loop that awaits each creation before
issuing the next). -/
theorem restore_issues_requests_in_order (st : PopupState) (ts : Nat) (s : Session)
    (hfind : st.sessions.find? (fun x => x.timestamp = ts) = some s) :
    (openSessionByTimestamp st ts).2 =
      s.tabs.map (fun t => { url := t.url, active := false }) ∧
    (openSessionByTimestamp st ts).2.length = s.tabs.length ∧
    ∀ r ∈ (openSessionByTimestamp st ts).2, r.active = false := by
  refine ⟨?_, ?_, ?_⟩ <;>
    simp [openSessionByTimestamp, hfind, restoreRequests_eq_map]

/-- C6, witnessed on a two-tab session. -/
theorem restore_issues_requests_in_order_witness :
    (openSessionByTimestamp
        { emptyPopupState with
            sessions := [⟨"w", [⟨"A", "https://a.test"⟩, ⟨"B", "https://b.test"⟩], 9, 2⟩] }
        9).2 =
      ([⟨"A", "https://a.test"⟩, ⟨"B", "https://b.test"⟩] : List Tab).map
        (fun t => { url := t.url, active := false }) ∧
    (openSessionByTimestamp
        { emptyPopupState with
            sessions := [⟨"w", [⟨"A", "https://a.test"⟩, ⟨"B", "https://b.test"⟩], 9, 2⟩] }
        9).2.length = ([⟨"A", "https://a.test"⟩, ⟨"B", "https://b.test"⟩] : List Tab).length ∧
    ∀ r ∈ (openSessionByTimestamp
        { emptyPopupState with
            sessions := [⟨"w", [⟨"A", "https://a.test"⟩, ⟨"B", "https://b.test"⟩], 9, 2⟩] }
        9).2, r.active = false :=
  restore_issues_requests_in_order _ 9
    ⟨"w", [⟨"A", "https://a.test"⟩, ⟨"B", "https://b.test"⟩], 9, 2⟩ (by decide)

/-- C7: every save appends one session whose `tabCount` equals the
length of its `tabs`, whose `tabs` are the captured (title, url) pairs
in enumeration order, whose `timestamp` is the clock value, and whose
name defaults to `Session <locale-now>` when the input is blank. -/
theorem save_constructs_session (st : PopupState) (L : String) (n : Nat)
    (bt : List BrowserTab) :
    ∃ s : Session,
      (saveCurrentTabs st L n bt).sessions = st.sessions ++ [s] ∧
      s.tabCount = s.tabs.length ∧
      s.tabs = bt.map (fun t => { title := t.title, url := t.url }) ∧
      s.timestamp = n ∧
      (jsTrim st.nameInput = "" → s.name = "Session " ++ L) := by
  refine ⟨sessionOfInput ⟨st.nameInput, L, n, bt⟩, rfl, ?_, rfl, rfl, ?_⟩
  · simp [sessionOfInput, captureTabData]
  · intro h
    simp [sessionOfInput, h]

/-- C7, witnessed on the spec's scenario: blank name, two open tabs. -/
theorem save_constructs_session_witness :
    ∃ s : Session,
      (saveCurrentTabs { emptyPopupState with nameInput := "" } ("L") 4
          [⟨1, true, "A", "https://a.test"⟩, ⟨2, false, "B", "https://b.test"⟩]).sessions =
        emptyPopupState.sessions ++ [s] ∧
      s.tabCount = s.tabs.length ∧
      s.tabs = ([⟨1, true, "A", "https://a.test"⟩, ⟨2, false, "B", "https://b.test"⟩] :
          List BrowserTab).map (fun t => { title := t.title, url := t.url }) ∧
      s.timestamp = 4 ∧
      (jsTrim ("") = "" → s.name = "Session " ++ "L") :=
  save_constructs_session { emptyPopupState with nameInput := "" } ("L") 4
    [⟨1, true, "A", "https://a.test"⟩, ⟨2, false, "B", "https://b.test"⟩]

/-- C8: deleting by a timestamp not present in the store appends the
not-found error toast and leaves the session list and the persisted
value unchanged, whatever the confirm dialog would have answered. -/
theorem removeByTimestamp_not_found (st : PopupState) (ts : Nat) (c : Bool)
    (h : ∀ s ∈ st.sessions, s.timestamp ≠ ts) :
    (deleteSessionByTimestamp st ts c).sessions = st.sessions ∧
    (deleteSessionByTimestamp st ts c).storage = st.storage ∧
    (deleteSessionByTimestamp st ts c).feedback =
      st.feedback ++ [⟨"Error: Session not found", FeedbackType.error⟩] := by
  have hfind : st.sessions.findIdx? (fun x => x.timestamp = ts) = none :=
    List.findIdx?_eq_none_iff.mpr (fun x hx => by simp [h x hx])
  simp [deleteSessionByTimestamp, hfind]

/-- C8, witnessed: deleting timestamp 999 from a store holding only
timestamp 100. -/
theorem removeByTimestamp_not_found_witness :
    (deleteSessionByTimestamp { emptyPopupState with sessions := [⟨"x", [], 100, 0⟩] }
        999 true).sessions = [⟨"x", [], 100, 0⟩] ∧
    (deleteSessionByTimestamp { emptyPopupState with sessions := [⟨"x", [], 100, 0⟩] }
        999 true).storage = none ∧
    (deleteSessionByTimestamp { emptyPopupState with sessions := [⟨"x", [], 100, 0⟩] }
        999 true).feedback =
      [] ++ [⟨"Error: Session not found", FeedbackType.error⟩] :=
  removeByTimestamp_not_found _ 999 true (by decide)

/-- C9: when nothing has ever been written under the sessions key,
`loadSessions` returns the empty list rather than failing. -/
theorem loadAll_empty_store :
    loadSessions none = [] := rfl

/-- C10: when the target timestamp is found but the user cancels the
confirm dialog, the delete leaves the session list, storage and the
feedback trace unchanged; the confirm prompt for that session was the
only observable effect. -/
theorem delete_cancelled_no_change (st : PopupState) (ts : Nat)
    (l1 l2 : List Session) (s : Session)
    (hsplit : st.sessions = l1 ++ s :: l2)
    (hs : s.timestamp = ts)
    (h1 : ∀ x ∈ l1, x.timestamp ≠ ts) :
    (deleteSessionByTimestamp st ts false).sessions = st.sessions ∧
    (deleteSessionByTimestamp st ts false).storage = st.storage ∧
    (deleteSessionByTimestamp st ts false).feedback = st.feedback ∧
    (deleteSessionByTimestamp st ts false).prompts =
      st.prompts ++ ["Delete session \"" ++ s.name ++ "\"?"] := by
  have hfind : st.sessions.findIdx? (fun x => x.timestamp = ts) = some l1.length := by
    rw [hsplit]
    exact findIdx?_first _ l1 s l2 (by simp [hs]) (fun x hx => by simp [h1 x hx])
  have hget : st.sessions[l1.length]? = some s := by
    rw [hsplit, ← List.get?_eq_getElem?]; exact get?_append_mid l1 s l2
  simp [deleteSessionByTimestamp, hfind, hget]

/-- C10, witnessed: cancelling the deletion of the only session leaves
everything as it was, with the dialog recorded. -/
theorem delete_cancelled_no_change_witness :
    (deleteSessionByTimestamp
        { emptyPopupState with
            sessions := [⟨"w", [], 100, 0⟩], storage := some [⟨"w", [], 100, 0⟩] }
        100 false).sessions = [⟨"w", [], 100, 0⟩] ∧
    (deleteSessionByTimestamp
        { emptyPopupState with
            sessions := [⟨"w", [], 100, 0⟩], storage := some [⟨"w", [], 100, 0⟩] }
        100 false).storage = some [⟨"w", [], 100, 0⟩] ∧
    (deleteSessionByTimestamp
        { emptyPopupState with
            sessions := [⟨"w", [], 100, 0⟩], storage := some [⟨"w", [], 100, 0⟩] }
        100 false).feedback = [] ∧
    (deleteSessionByTimestamp
        { emptyPopupState with
            sessions := [⟨"w", [], 100, 0⟩], storage := some [⟨"w", [], 100, 0⟩] }
        100 false).prompts =
      [] ++ ["Delete session \"" ++ "w" ++ "\"?"] :=
  delete_cancelled_no_change _ 100 [] [] ⟨"w", [], 100, 0⟩ rfl rfl (by decide)

end TabSaver
